import Mathlib

/-!
Verification of the rent/date/repair calculators of `utils/rent_tools.py`.

The three Python functions are pure; they are embedded as Lean functions.
Modelling conventions:
* Python `float` money amounts are modelled as exact rationals (`ℚ`); the
  specification phrases all money arithmetic over exact numbers.
* Python `int` month counts are modelled as `ℤ`; day counts, which the
  claims restrict to be non-negative, as `ℕ`.
* Each function's returned narrative string is modelled by a record (or an
  inductive with one constructor per `return` statement) holding exactly the
  data interpolated into that narrative; the narrative is a pure function of
  this record, so equal records mean equal narratives.
* `datetime.strptime(s, "%Y-%m-%d")` is modelled after CPython `_strptime`:
  the year is exactly four digits, month and day are matched by the regex
  alternations `1[0-2]|0[1-9]|[1-9]` and `3[01]|[12]\d|0[1-9]|[1-9]`
  (leftmost-alternative with backtracking), trailing text is rejected, and
  the resulting triple is validated like `datetime.date` (year 1..9999,
  month 1..12, day 1..days-in-month with Gregorian leap years).  Error
  messages follow CPython's wording; the no-match message quotes the input
  with Python `repr`, modelled by `pyRepr`.  Digits and `repr`
  printability are modelled for ASCII characters (CPython additionally
  accepts Unicode decimal digits in `\d`/`int()` and escapes unprintable
  non-ASCII characters in `repr`), so the error-behaviour claims are
  stated for ASCII inputs, on which this model is exact.
* `date + timedelta(days=n)` is the calendar date `n` days later, modelled
  as `n` iterations of the successor-day function, with CPython's bounds:
  `timedelta` rejects day counts above 999999999 and the date type rejects
  results past year 9999 (`OverflowError`, caught by the `except` block).
-/

/-! ## Substring matching (Python's `in` operator on `str`) -/

def containsSub (needle : List Char) : List Char → Bool
  | [] => needle.isPrefixOf ([])
  | c :: rest => needle.isPrefixOf (c :: rest) || containsSub needle rest

def strContains (hay needle : String) : Bool :=
  containsSub needle.data hay.data

def charLower (c : Char) : Char :=
  if 'A' ≤ c ∧ c ≤ 'Z' then Char.ofNat (c.toNat + 32) else c

/-- Python str.lower, modelled on the ASCII letters. -/
def pyLower (s : String) : String :=
  String.mk (s.data.map charLower)

/-! ## `calculate_rent` -/

/-- The data of the penalty line that appears in the early-termination
narrative only: the notice period and the computed penalty. -/
structure EarlyTermination where
  notice_period_months : ℤ
  penalty : ℚ
deriving DecidableEq

/-- The data interpolated into the `calculate_rent` narrative.  `early` is
`some _` exactly when the early-termination branch is taken; the `none`
branch's narrative has no penalty line and never mentions the notice
period. -/
structure RentResult where
  monthly_rent : ℚ
  stay_months : ℤ
  total_rent : ℚ
  deposit : ℚ
  refundable_deposit : ℚ
  early : Option EarlyTermination
deriving DecidableEq

/-- The penalty reported by a `RentResult`; a result without a penalty line
reports no penalty, i.e. `0` (the specification's record convention). -/
def RentResult.penalty (r : RentResult) : ℚ :=
  (r.early.map EarlyTermination.penalty).getD 0

def calculate_rent (monthly_rent : ℚ) (stay_months : ℤ) (deposit : ℚ)
    (is_early_termination : Bool) (notice_period_months : ℤ) : RentResult :=
  let total_rent := monthly_rent * (stay_months : ℚ)
  if is_early_termination then
    let penalty := monthly_rent * (notice_period_months : ℚ)
    let refundable_deposit := max 0 (deposit - penalty)
    ⟨monthly_rent, stay_months, total_rent, deposit, refundable_deposit,
      some ⟨notice_period_months, penalty⟩⟩
  else
    ⟨monthly_rent, stay_months, total_rent, deposit, deposit, none⟩

/-! ## Dates (CPython `datetime.date` arithmetic) -/

structure PyDate where
  year : Nat
  month : Nat
  day : Nat
deriving DecidableEq

/-- CPython `is_leap`: `year % 4 == 0 && (year % 100 != 0 || year % 400 == 0)`. -/
def isLeap (y : Nat) : Bool :=
  y % 4 == 0 && (y % 100 != 0 || y % 400 == 0)

def daysInMonth (y m : Nat) : Nat :=
  if m = 2 then (if isLeap y then 29 else 28)
  else if m = 4 ∨ m = 6 ∨ m = 9 ∨ m = 11 then 30
  else 31

/-- CPython `_DAYS_BEFORE_MONTH` table (days in a non-leap year before the
first of the given month). -/
def daysBeforeMonthTable : Nat → Nat
  | 1 => 0
  | 2 => 31
  | 3 => 59
  | 4 => 90
  | 5 => 120
  | 6 => 151
  | 7 => 181
  | 8 => 212
  | 9 => 243
  | 10 => 273
  | 11 => 304
  | 12 => 334
  | _ => 0

/-- CPython `_days_before_month`. -/
def daysBeforeMonth (y m : Nat) : Nat :=
  daysBeforeMonthTable m + (if 2 < m ∧ isLeap y then 1 else 0)

/-- Leap days in years `1..y` (CPython writes `y/4 - y/100 + y/400`). -/
def leapsBefore (y : Nat) : Nat :=
  y / 4 - y / 100 + y / 400

/-- CPython `date.toordinal`: day number with 0001-01-01 as day 1. -/
def toOrdinal (d : PyDate) : Nat :=
  365 * (d.year - 1) + leapsBefore (d.year - 1) + daysBeforeMonth d.year d.month + d.day

def ValidDate (d : PyDate) : Prop :=
  1 ≤ d.year ∧ 1 ≤ d.month ∧ d.month ≤ 12 ∧ 1 ≤ d.day ∧ d.day ≤ daysInMonth d.year d.month

instance : DecidablePred ValidDate := fun d => by
  unfold ValidDate; infer_instance

/-- The next calendar day. -/
def nextDay (d : PyDate) : PyDate :=
  if d.day < daysInMonth d.year d.month then ⟨d.year, d.month, d.day + 1⟩
  else if d.month < 12 then ⟨d.year, d.month + 1, 1⟩
  else ⟨d.year + 1, 1, 1⟩

/-- `date + timedelta(days=n)`: the calendar date `n` days later. -/
def addDays (d : PyDate) (n : Nat) : PyDate :=
  nextDay^[n] d

/-! ## `datetime.strptime(s, "%Y-%m-%d")` -/

def digitVal (c : Char) : Nat := c.toNat - 48

/-- `%Y` matches exactly four digits. -/
def parseYear4 : List Char → Option (Nat × List Char)
  | c1 :: c2 :: c3 :: c4 :: rest =>
    if c1.isDigit ∧ c2.isDigit ∧ c3.isDigit ∧ c4.isDigit then
      some (1000 * digitVal c1 + 100 * digitVal c2 + 10 * digitVal c3 + digitVal c4, rest)
    else none
  | _ => none

/-- The alternatives of `%m`'s regex `1[0-2]|0[1-9]|[1-9]`, in regex order. -/
def monthAlts (l : List Char) : List (Nat × List Char) :=
  (match l with
    | '1' :: c :: r => if '0' ≤ c ∧ c ≤ '2' then [(10 + digitVal c, r)] else []
    | _ => []) ++
  (match l with
    | '0' :: c :: r => if '1' ≤ c ∧ c ≤ '9' then [(digitVal c, r)] else []
    | _ => []) ++
  (match l with
    | c :: r => if '1' ≤ c ∧ c ≤ '9' then [(digitVal c, r)] else []
    | _ => [])

/-- The alternatives of `%d`'s regex `3[01]|[12]\d|0[1-9]|[1-9]`, in regex
order. -/
def dayAlts (l : List Char) : List (Nat × List Char) :=
  (match l with
    | '3' :: c :: r => if c = '0' ∨ c = '1' then [(30 + digitVal c, r)] else []
    | _ => []) ++
  (match l with
    | c1 :: c2 :: r =>
      if (c1 = '1' ∨ c1 = '2') ∧ c2.isDigit then [(10 * digitVal c1 + digitVal c2, r)] else []
    | _ => []) ++
  (match l with
    | '0' :: c :: r => if '1' ≤ c ∧ c ≤ '9' then [(digitVal c, r)] else []
    | _ => []) ++
  (match l with
    | c :: r => if '1' ≤ c ∧ c ≤ '9' then [(digitVal c, r)] else []
    | _ => [])

/-- Backtracking over the month alternatives: for each, the literal `-` and
then a day alternative must follow (nothing after the day constrains it, so
the first day alternative wins). -/
def tryMonths : List (Nat × List Char) → Option (Nat × Nat × List Char)
  | [] => none
  | (m, r) :: rest =>
    match r with
    | '-' :: r4 =>
      (match dayAlts r4 with
       | [] => tryMonths rest
       | (d, r5) :: _ => some (m, d, r5))
    | _ => tryMonths rest

/-- The regex CPython compiles for the format `%Y-%m-%d`, applied at the
start of the string; returns year, month, day and the unconsumed tail. -/
def regexMatchYmd (s : List Char) : Option (Nat × Nat × Nat × List Char) :=
  match parseYear4 s with
  | none => none
  | some (y, r1) =>
    match r1 with
    | '-' :: r2 =>
      match tryMonths (monthAlts r2) with
      | none => none
      | some (m, d, rest) => some (y, m, d, rest)
    | _ => none

/-- Lower-case hexadecimal digit, as used by CPython repr `\xNN` escapes. -/
def hexDigit (n : Nat) : Char :=
  if n < 10 then Char.ofNat (48 + n) else Char.ofNat (87 + n)

/-- CPython `repr` quote choice: a single quote (code 39) unless the string
contains one and no double quote (code 34). -/
def pyReprQuote (s : List Char) : Char :=
  if (s.any (fun c => c.toNat == 39)) = true ∧ (s.any (fun c => c.toNat == 34)) = false
  then Char.ofNat 34 else Char.ofNat 39

/-- CPython `repr` of one character under the chosen quote: backslash-escape
the quote and the backslash, `\t`/`\n`/`\r` for tab, newline, carriage
return, `\xNN` for the other control characters (below space, or 0x7f);
printable characters stand for themselves.  Non-ASCII characters are
emitted verbatim (CPython escapes the unprintable ones; the claims
quantify over ASCII inputs only, where this is exact). -/
def pyReprChar (q c : Char) : List Char :=
  if c = q ∨ c.toNat = 92 then [Char.ofNat 92, c]
  else if c.toNat = 9 then [Char.ofNat 92, Char.ofNat 116]
  else if c.toNat = 10 then [Char.ofNat 92, Char.ofNat 110]
  else if c.toNat = 13 then [Char.ofNat 92, Char.ofNat 114]
  else if c.toNat < 32 ∨ c.toNat = 127 then
    [Char.ofNat 92, Char.ofNat 120, hexDigit (c.toNat / 16), hexDigit (c.toNat % 16)]
  else [c]

def pyReprBody (q : Char) : List Char → List Char
  | [] => []
  | c :: r => pyReprChar q c ++ pyReprBody q r

/-- CPython `repr` of a string: the escaped body between quotes. -/
def pyRepr (s : String) : String :=
  String.mk (pyReprQuote s.data ::
    pyReprBody (pyReprQuote s.data) s.data ++ [pyReprQuote s.data])

/-- Strings on which the embedding of `strptime` agrees with CPython
exactly: ASCII only (no Unicode decimal digits, no non-ASCII repr
escaping). -/
def asciiOnly (s : String) : Bool :=
  s.data.all (fun c => decide (c.toNat < 128))

/-- Printable ASCII text free of single quotes (code 39) and backslashes
(code 92): exactly the strings whose Python `repr` is the string itself
between two single quotes, with no escaping. -/
def plainAscii (s : String) : Bool :=
  s.data.all (fun c =>
    decide (32 ≤ c.toNat ∧ c.toNat ≤ 126 ∧ c.toNat ≠ 39 ∧ c.toNat ≠ 92))

/-- `datetime.strptime(s, "%Y-%m-%d")`: regex match, full-consumption check,
then `datetime.date`-style validation, with CPython's error messages (the
no-match message interpolates the input and the format with `%r`). -/
def strptimeYmd (s : String) : Except String PyDate :=
  match regexMatchYmd s.data with
  | none =>
    Except.error (("time data ") ++ pyRepr s ++ (" does not match format ")
      ++ pyRepr ("%Y-%m-%d"))
  | some (y, m, d, rest) =>
    if rest ≠ [] then Except.error (("unconverted data remains: ") ++ String.mk rest)
    else if y < 1 ∨ 9999 < y then
      Except.error (("year ") ++ toString y ++ (" is out of range"))
    else if m < 1 ∨ 12 < m then Except.error ("month must be in 1..12")
    else if d < 1 ∨ daysInMonth y m < d then
      Except.error ("day is out of range for month")
    else Except.ok ⟨y, m, d⟩

/-! ## `calculate_moveout_date` -/

/-- The data interpolated into the success narrative of
`calculate_moveout_date`. -/
structure MoveOutResult where
  notice_date : PyDate
  notice_days : Nat
  moveout_date : PyDate
  days_remaining : Nat
deriving DecidableEq

/-- The `except` block's user-facing message, wrapping `str(e)`. -/
def dateErrorMessage (e : String) : String :=
  ("Date Calculation Error: ") ++ e ++
    (". Please ensure the date format is YYYY-MM-DD (e.g., 2025-03-01).")

def calculate_moveout_date (current_date : String) (notice_days : Nat) :
    Except String MoveOutResult :=
  match strptimeYmd current_date with
  | Except.error e => Except.error (dateErrorMessage e)
  | Except.ok current =>
    if 999999999 < notice_days then
      Except.error (dateErrorMessage
        (("days=") ++ toString notice_days ++ ("; must have magnitude <= 999999999")))
    else
      let moveout := addDays current notice_days
      if 9999 < moveout.year then
        Except.error (dateErrorMessage ("date value out of range"))
      else
        Except.ok ⟨current, notice_days, moveout, toOrdinal moveout - toOrdinal current⟩

/-! ## `get_repair_responsibility` -/

/-- One constructor per `return` statement of `get_repair_responsibility`,
holding exactly the data interpolated into that branch's narrative (the
lower-cased repair type, plus the cost figures where the narrative states
them). -/
inductive RepairResult where
  | tenantConsumable (repair_type : String)
  | landlordMaintained (repair_type : String)
  | smallRepair (repair_type : String) (cost : ℚ)
  | split (repair_type : String) (cost tenant_share landlord_share : ℚ)
  | structural (repair_type : String)
  | undetermined (repair_type : String)
deriving DecidableEq

inductive RepairCategory where
  | tenantConsumable
  | landlordMaintained
  | costSplit
  | structural
  | undetermined
deriving DecidableEq

/-- The specification's category of each return branch (both returns of the
`cost > 0` branch are the cost-split category). -/
def RepairResult.category : RepairResult → RepairCategory
  | .tenantConsumable _ => .tenantConsumable
  | .landlordMaintained _ => .landlordMaintained
  | .smallRepair _ _ => .costSplit
  | .split _ _ _ _ => .costSplit
  | .structural _ => .structural
  | .undetermined _ => .undetermined

/-- The numeric tenant share a narrative states, when it states one: the
small-repair branch assigns the whole cost to the tenant, the split branch
states its tenant figure; the other narratives state no figures. -/
def RepairResult.tenantShare : RepairResult → Option ℚ
  | .smallRepair _ c => some c
  | .split _ _ t _ => some t
  | _ => none

/-- The numeric landlord share a narrative states, when it states one. -/
def RepairResult.landlordShare : RepairResult → Option ℚ
  | .smallRepair _ _ => some 0
  | .split _ _ _ l => some l
  | _ => none

def structuralKeywords : List String :=
  ["light", "roof", "pipe", "circuit", "structure"]

def get_repair_responsibility (repair_type : String) (cost : ℚ) : RepairResult :=
  let rt := pyLower repair_type
  if strContains rt ("bulb") || strContains rt ("tube") then
    RepairResult.tenantConsumable rt
  else if strContains rt ("air conditioner") then
    RepairResult.landlordMaintained rt
  else if 0 < cost then
    (if cost ≤ 200 then RepairResult.smallRepair rt cost
     else RepairResult.split rt cost 200 (cost - 200))
  else if structuralKeywords.any (fun k => strContains rt k) then
    RepairResult.structural rt
  else
    RepairResult.undetermined rt

deriving instance DecidableEq for Except

/-! ## Substring lemmas -/

lemma isPrefixOf_self (n : List Char) : n.isPrefixOf n = true := by
  induction n with
  | nil => rfl
  | cons c r ih => simp [List.isPrefixOf, ih]

lemma isPrefixOf_extend (n : List Char) : ∀ (h t : List Char),
    n.isPrefixOf h = true → n.isPrefixOf (h ++ t) = true := by
  induction n with
  | nil => intro h t _; simp [List.isPrefixOf]
  | cons c n' ih =>
    intro h t hp
    cases h with
    | nil => simp [List.isPrefixOf] at hp
    | cons d h' =>
      simp only [List.cons_append, List.isPrefixOf, Bool.and_eq_true] at hp ⊢
      exact ⟨hp.1, ih h' t hp.2⟩

lemma containsSub_nil_needle (h : List Char) : containsSub ([]) h = true := by
  cases h with
  | nil => rfl
  | cons c r => simp [containsSub, List.isPrefixOf]

lemma containsSub_of_isPrefixOf (n h : List Char) (hp : n.isPrefixOf h = true) :
    containsSub n h = true := by
  cases h with
  | nil => simpa [containsSub] using hp
  | cons c r => simp [containsSub, hp]

lemma containsSub_append_right (n a b : List Char) (hb : containsSub n b = true) :
    containsSub n (a ++ b) = true := by
  induction a with
  | nil => simpa using hb
  | cons c a' ih =>
    simp only [List.cons_append, containsSub, Bool.or_eq_true]
    exact Or.inr ih

lemma containsSub_append_self (n b : List Char) : containsSub n (n ++ b) = true :=
  containsSub_of_isPrefixOf _ _ (isPrefixOf_extend n n b (isPrefixOf_self n))

lemma containsSub_append_left (n : List Char) : ∀ (a b : List Char),
    containsSub n a = true → containsSub n (a ++ b) = true := by
  intro a
  induction a with
  | nil =>
    intro b ha
    have hn : n = [] := by
      cases n with
      | nil => rfl
      | cons c r => simp [containsSub, List.isPrefixOf] at ha
    subst hn
    simpa using containsSub_nil_needle b
  | cons c a' ih =>
    intro b ha
    simp only [containsSub, Bool.or_eq_true] at ha
    simp only [List.cons_append, containsSub, Bool.or_eq_true]
    rcases ha with hp | hc
    · exact Or.inl (isPrefixOf_extend n (c :: a') b hp)
    · exact Or.inr (ih b hc)

lemma strContains_dateErrorMessage_format (e : String) :
    strContains (dateErrorMessage e) ("YYYY-MM-DD") = true := by
  unfold strContains dateErrorMessage
  simp only [String.data_append, List.append_assoc]
  apply containsSub_append_right
  apply containsSub_append_right
  decide

lemma containsSub_cons (n : List Char) (c : Char) (l : List Char)
    (h : containsSub n l = true) : containsSub n (c :: l) = true := by
  simp only [containsSub, Bool.or_eq_true]
  exact Or.inr h

lemma data_mk_eq (l : List Char) : (String.mk l).data = l := rfl

lemma pyReprBody_id (q : Char) (l : List Char)
    (h : ∀ c ∈ l, pyReprChar q c = [c]) : pyReprBody q l = l := by
  induction l with
  | nil => rfl
  | cons c r ih =>
    simp only [pyReprBody]
    rw [h c (by simp), ih (fun d hd => h d (by simp [hd]))]
    rfl

lemma pyRepr_plain (s : String) (h : plainAscii s = true) :
    pyRepr s = String.mk (Char.ofNat 39 :: (s.data ++ [Char.ofNat 39])) := by
  simp only [plainAscii, List.all_eq_true, decide_eq_true_eq] at h
  have hq : pyReprQuote s.data = Char.ofNat 39 := by
    unfold pyReprQuote
    rw [if_neg]
    rintro ⟨h39, _⟩
    rw [List.any_eq_true] at h39
    obtain ⟨c, hc, hbeq⟩ := h39
    rw [beq_iff_eq] at hbeq
    exact (h c hc).2.2.1 hbeq
  have hall : ∀ c ∈ s.data, pyReprChar (Char.ofNat 39) c = [c] := by
    intro c hc
    obtain ⟨h1, h2, h3, h4⟩ := h c hc
    have hA : ¬ (c = Char.ofNat 39 ∨ c.toNat = 92) := by
      rintro (rfl | h92)
      · exact h3 (by decide)
      · exact h4 h92
    have hB : ¬ c.toNat = 9 := by omega
    have hC : ¬ c.toNat = 10 := by omega
    have hD : ¬ c.toNat = 13 := by omega
    have hE : ¬ (c.toNat < 32 ∨ c.toNat = 127) := by omega
    rw [pyReprChar, if_neg hA, if_neg hB, if_neg hC, if_neg hD, if_neg hE]
  unfold pyRepr
  rw [hq, pyReprBody_id (Char.ofNat 39) s.data hall]
  rfl

lemma strContains_append_left (a b n : String) (h : strContains a n = true) :
    strContains (a ++ b) n = true := by
  unfold strContains at h ⊢
  rw [String.data_append]
  exact containsSub_append_left n.data a.data b.data h

lemma strContains_append_right (a b n : String) (h : strContains b n = true) :
    strContains (a ++ b) n = true := by
  unfold strContains at h ⊢
  rw [String.data_append]
  exact containsSub_append_right n.data a.data b.data h

/-! ## Calendar lemmas -/

lemma isLeap_iff (y : Nat) :
    isLeap y = true ↔ (y % 4 = 0 ∧ (y % 100 ≠ 0 ∨ y % 400 = 0)) := by
  simp [isLeap]

lemma daysInMonth_pos (y m : Nat) : 1 ≤ daysInMonth y m := by
  unfold daysInMonth
  split_ifs <;> norm_num

lemma leapsBefore_succ_leap (y : Nat) (h : isLeap (y + 1) = true) :
    leapsBefore (y + 1) = leapsBefore y + 1 := by
  rw [isLeap_iff] at h
  unfold leapsBefore
  omega

lemma leapsBefore_succ_nonleap (y : Nat) (h : isLeap (y + 1) = false) :
    leapsBefore (y + 1) = leapsBefore y := by
  have h' : ¬ ((y + 1) % 4 = 0 ∧ ((y + 1) % 100 ≠ 0 ∨ (y + 1) % 400 = 0)) := by
    rw [← isLeap_iff, h]
    simp
  unfold leapsBefore
  push_neg at h'
  rcases Nat.decEq ((y + 1) % 4) 0 with h4 | h4
  · omega
  · have := h' h4
    omega

lemma daysBeforeMonth_succ (y m : Nat) (h1 : 1 ≤ m) (h2 : m ≤ 11) :
    daysBeforeMonth y (m + 1) = daysBeforeMonth y m + daysInMonth y m := by
  interval_cases m <;>
    cases hl : isLeap y <;>
      simp [daysBeforeMonth, daysBeforeMonthTable, daysInMonth, hl]

lemma toOrdinal_nextDay (d : PyDate) (h : ValidDate d) :
    toOrdinal (nextDay d) = toOrdinal d + 1 := by
  obtain ⟨hy, hm1, hm12, hd1, hd2⟩ := h
  unfold nextDay
  split_ifs with h1 h2
  · show 365 * (d.year - 1) + leapsBefore (d.year - 1) +
        daysBeforeMonth d.year d.month + (d.day + 1) = toOrdinal d + 1
    unfold toOrdinal
    omega
  · have hstep := daysBeforeMonth_succ d.year d.month hm1 (by omega)
    show 365 * (d.year - 1) + leapsBefore (d.year - 1) +
        daysBeforeMonth d.year (d.month + 1) + 1 = toOrdinal d + 1
    unfold toOrdinal
    omega
  · have hm : d.month = 12 := by omega
    have hdim : daysInMonth d.year 12 = 31 := by norm_num [daysInMonth]
    have hde : d.day = 31 := by rw [hm] at hd2 h1; omega
    have key : toOrdinal d = 365 * (d.year - 1) + leapsBefore (d.year - 1) +
        daysBeforeMonth d.year 12 + 31 := by
      unfold toOrdinal
      rw [hm, hde]
    have key2 : toOrdinal ⟨d.year + 1, 1, 1⟩ =
        365 * d.year + leapsBefore d.year + daysBeforeMonth (d.year + 1) 1 + 1 := by
      unfold toOrdinal
      simp
    have h1t : daysBeforeMonth (d.year + 1) 1 = 0 := by
      simp [daysBeforeMonth, daysBeforeMonthTable]
    have h334 : daysBeforeMonth d.year 12 =
        334 + (if isLeap d.year then 1 else 0) := by
      simp [daysBeforeMonth, daysBeforeMonthTable]
    have hy1 : d.year - 1 + 1 = d.year := by omega
    cases hl : isLeap d.year with
    | true =>
      have hls := leapsBefore_succ_leap (d.year - 1) (by rw [hy1]; exact hl)
      rw [hy1] at hls
      rw [hl] at h334
      simp only [if_true] at h334
      rw [key2, key, h334, h1t]
      omega
    | false =>
      have hls := leapsBefore_succ_nonleap (d.year - 1) (by rw [hy1]; exact hl)
      rw [hy1] at hls
      rw [hl] at h334
      simp only [Bool.false_eq_true, if_false] at h334
      rw [key2, key, h334, h1t]
      omega

lemma validDate_nextDay (d : PyDate) (h : ValidDate d) : ValidDate (nextDay d) := by
  obtain ⟨hy, hm1, hm12, hd1, hd2⟩ := h
  unfold ValidDate nextDay
  split_ifs with h1 h2
  · exact ⟨hy, hm1, hm12, show 1 ≤ d.day + 1 by omega,
      show d.day + 1 ≤ daysInMonth d.year d.month by omega⟩
  · exact ⟨hy, show 1 ≤ d.month + 1 by omega, show d.month + 1 ≤ 12 by omega,
      show (1:Nat) ≤ 1 by omega,
      show (1:Nat) ≤ daysInMonth d.year (d.month + 1) from daysInMonth_pos _ _⟩
  · exact ⟨show 1 ≤ d.year + 1 by omega, show (1:Nat) ≤ 1 by omega,
      show (1:Nat) ≤ 12 by omega, show (1:Nat) ≤ 1 by omega,
      show (1:Nat) ≤ daysInMonth (d.year + 1) 1 from daysInMonth_pos _ _⟩

lemma addDays_spec (d : PyDate) (h : ValidDate d) (n : Nat) :
    ValidDate (addDays d n) ∧ toOrdinal (addDays d n) = toOrdinal d + n := by
  induction n with
  | zero => exact ⟨by simpa [addDays] using h, by simp [addDays]⟩
  | succ k ih =>
    have h1 : addDays d (k + 1) = nextDay (addDays d k) := by
      simp [addDays, Function.iterate_succ_apply']
    rw [h1]
    refine ⟨validDate_nextDay _ ih.1, ?_⟩
    rw [toOrdinal_nextDay _ ih.1, ih.2]
    omega

lemma strptimeYmd_valid (s : String) (d : PyDate)
    (h : strptimeYmd s = Except.ok d) : ValidDate d ∧ d.year ≤ 9999 := by
  unfold strptimeYmd at h
  split at h
  · exact Except.noConfusion h
  · rename_i y m dd rest heq
    split_ifs at h with h1 h2 h3 h4
    simp only [Except.ok.injEq] at h
    subst h
    push_neg at h2 h3 h4
    unfold ValidDate
    exact ⟨⟨show 1 ≤ y by omega, show 1 ≤ m by omega, show m ≤ 12 by omega,
      show 1 ≤ dd by omega, h4.2⟩, show y ≤ 9999 by omega⟩

/-! ## Claims about `calculate_rent` -/

/-- C1: for every monthlyRent ≥ 0, stayMonths ≥ 0, deposit ≥ 0 and
noticePeriodMonths ≥ 0, `calculate_rent` reports
totalRent = monthlyRent * stayMonths exactly; when isEarlyTermination is
true it reports penalty = monthlyRent * noticePeriodMonths and
refundableDeposit = max 0 (deposit - penalty); when it is false it reports
penalty = 0 and refundableDeposit = deposit. -/
theorem calculate_rent_spec (m : ℚ) (s : ℤ) (dep : ℚ) (np : ℤ) (b : Bool)
    (hm : 0 ≤ m) (hs : 0 ≤ s) (hd : 0 ≤ dep) (hnp : 0 ≤ np) :
    (calculate_rent m s dep b np).total_rent = m * (s : ℚ) ∧
    (b = true →
      (calculate_rent m s dep b np).penalty = m * (np : ℚ) ∧
      (calculate_rent m s dep b np).refundable_deposit = max 0 (dep - m * (np : ℚ))) ∧
    (b = false →
      (calculate_rent m s dep b np).penalty = 0 ∧
      (calculate_rent m s dep b np).refundable_deposit = dep) := by
  cases b <;> simp [calculate_rent, RentResult.penalty]

theorem calculate_rent_spec_witness :
    ((0:ℚ) ≤ 1000 ∧ (0:ℤ) ≤ 6 ∧ (0:ℚ) ≤ 2000 ∧ (0:ℤ) ≤ 2) ∧
    ((calculate_rent 1000 6 2000 true 2).total_rent = 1000 * ((6:ℤ) : ℚ) ∧
     (true = true →
       (calculate_rent 1000 6 2000 true 2).penalty = 1000 * ((2:ℤ) : ℚ) ∧
       (calculate_rent 1000 6 2000 true 2).refundable_deposit
         = max 0 (2000 - 1000 * ((2:ℤ) : ℚ))) ∧
     (true = false →
       (calculate_rent 1000 6 2000 true 2).penalty = 0 ∧
       (calculate_rent 1000 6 2000 true 2).refundable_deposit = 2000)) :=
  ⟨⟨by norm_num, by norm_num, by norm_num, by norm_num⟩,
    calculate_rent_spec 1000 6 2000 2 true (by norm_num) (by norm_num)
      (by norm_num) (by norm_num)⟩

/-- C2: for every call of `calculate_rent` with deposit ≥ 0 (and
monthlyRent ≥ 0, stayMonths ≥ 0, noticePeriodMonths ≥ 0), the reported
refundableDeposit is never negative, in both branches. -/
theorem refundable_deposit_nonneg (m : ℚ) (s : ℤ) (dep : ℚ) (b : Bool) (np : ℤ)
    (hm : 0 ≤ m) (hs : 0 ≤ s) (hd : 0 ≤ dep) (hnp : 0 ≤ np) :
    0 ≤ (calculate_rent m s dep b np).refundable_deposit := by
  cases b with
  | false => simpa [calculate_rent] using hd
  | true =>
    show 0 ≤ max 0 (dep - m * (np : ℚ))
    exact le_max_left 0 _

theorem refundable_deposit_nonneg_witness :
    ((0:ℚ) ≤ 1000 ∧ (0:ℤ) ≤ 6 ∧ (0:ℚ) ≤ 500 ∧ (0:ℤ) ≤ 2) ∧
    0 ≤ (calculate_rent 1000 6 500 true 2).refundable_deposit :=
  ⟨⟨by norm_num, by norm_num, by norm_num, by norm_num⟩,
    refundable_deposit_nonneg 1000 6 500 true 2 (by norm_num) (by norm_num)
      (by norm_num) (by norm_num)⟩

/-- C9: when isEarlyTermination is false, the result of `calculate_rent`
is completely independent of noticePeriodMonths: two calls differing only
in the notice period return identical results, and the result contains no
penalty line (so it reports penalty 0 and never mentions the notice
period). -/
theorem rent_notice_independence (m : ℚ) (s : ℤ) (dep : ℚ) (np1 np2 : ℤ) :
    calculate_rent m s dep false np1 = calculate_rent m s dep false np2 ∧
    (calculate_rent m s dep false np1).early = none ∧
    (calculate_rent m s dep false np1).penalty = 0 := by
  refine ⟨rfl, rfl, ?_⟩
  simp [calculate_rent, RentResult.penalty]

/-! ## Claims about `get_repair_responsibility` -/

/-- C3: the classifier evaluates its five rules in strict priority order,
first match winning: "bulb"/"tube" (case-insensitive substring) gives the
tenant-consumable branch regardless of cost; otherwise "air conditioner"
gives the landlord-maintained branch regardless of cost; otherwise
cost > 0 gives the cost-split category; otherwise a structural keyword
gives the structural branch; otherwise the result is undetermined.  In
particular "light bulb replacement" is tenant-consumable (rule 1 beats
rule 4) and "air conditioner" with cost 50 is landlord-maintained (rule 2
beats rule 3). -/
theorem repair_priority_order (rt : String) (c : ℚ) :
    ((strContains (pyLower rt) ("bulb") || strContains (pyLower rt) ("tube")) = true →
      get_repair_responsibility rt c = RepairResult.tenantConsumable (pyLower rt)) ∧
    ((strContains (pyLower rt) ("bulb") || strContains (pyLower rt) ("tube")) = false →
      strContains (pyLower rt) ("air conditioner") = true →
      get_repair_responsibility rt c = RepairResult.landlordMaintained (pyLower rt)) ∧
    ((strContains (pyLower rt) ("bulb") || strContains (pyLower rt) ("tube")) = false →
      strContains (pyLower rt) ("air conditioner") = false →
      0 < c →
      (get_repair_responsibility rt c).category = RepairCategory.costSplit) ∧
    ((strContains (pyLower rt) ("bulb") || strContains (pyLower rt) ("tube")) = false →
      strContains (pyLower rt) ("air conditioner") = false →
      ¬ 0 < c →
      (structuralKeywords.any (fun k => strContains (pyLower rt) k)) = true →
      get_repair_responsibility rt c = RepairResult.structural (pyLower rt)) ∧
    ((strContains (pyLower rt) ("bulb") || strContains (pyLower rt) ("tube")) = false →
      strContains (pyLower rt) ("air conditioner") = false →
      ¬ 0 < c →
      (structuralKeywords.any (fun k => strContains (pyLower rt) k)) = false →
      get_repair_responsibility rt c = RepairResult.undetermined (pyLower rt)) ∧
    (get_repair_responsibility ("light bulb replacement") 0).category
      = RepairCategory.tenantConsumable ∧
    (get_repair_responsibility ("air conditioner") 50).category
      = RepairCategory.landlordMaintained := by
  refine ⟨?_, ?_, ?_, ?_, ?_, by decide, by decide⟩
  · intro h1
    simp [get_repair_responsibility, h1]
  · intro h1 h2
    simp [get_repair_responsibility, h1, h2]
  · intro h1 h2 h3
    rcases le_or_lt c 200 with h4 | h4
    · simp [get_repair_responsibility, h1, h2, h3, h4, RepairResult.category]
    · simp [get_repair_responsibility, h1, h2, h3, h4.not_le, RepairResult.category]
  · intro h1 h2 h3 h4
    simp [get_repair_responsibility, h1, h2, h3, h4]
  · intro h1 h2 h3 h4
    simp [get_repair_responsibility, h1, h2, h3, h4]

theorem repair_priority_order_witness :
    (strContains (pyLower ("light bulb replacement")) ("bulb")
      || strContains (pyLower ("light bulb replacement")) ("tube")) = true ∧
    get_repair_responsibility ("light bulb replacement") 7
      = RepairResult.tenantConsumable (pyLower ("light bulb replacement")) :=
  ⟨by decide, (repair_priority_order ("light bulb replacement") 7).1 (by decide)⟩

lemma plumbing_leak_split :
    get_repair_responsibility ("plumbing leak") 300
      = RepairResult.split ("plumbing leak") 300 200 100 := by
  have h1a : strContains ("plumbing leak") ("bulb") = false := by decide
  have h1b : strContains ("plumbing leak") ("tube") = false := by decide
  have h2 : strContains ("plumbing leak") ("air conditioner") = false := by decide
  have h3 : pyLower ("plumbing leak") = ("plumbing leak") := by decide
  have h4 : (0:ℚ) < 300 := by norm_num
  have h5 : ¬ (300:ℚ) ≤ 200 := by norm_num
  have h6 : (300:ℚ) - 200 = 100 := by norm_num
  simp [get_repair_responsibility, h1a, h1b, h2, h3, h4, h5, h6]

/-- C4: when the repair type contains none of "bulb", "tube",
"air conditioner" (case-insensitive) and cost > 0, the classifier takes
the cost-split branch even when a structural keyword is present:
tenantShare = cost, landlordShare = 0 for cost ≤ 200, and
tenantShare = 200, landlordShare = cost - 200 for cost > 200; in
particular "plumbing leak" at cost 300 splits 200 / 100. -/
theorem repair_cost_split_spec (rt : String) (c : ℚ)
    (hb : strContains (pyLower rt) ("bulb") = false)
    (ht : strContains (pyLower rt) ("tube") = false)
    (ha : strContains (pyLower rt) ("air conditioner") = false)
    (hc : 0 < c) :
    (c ≤ 200 →
      get_repair_responsibility rt c = RepairResult.smallRepair (pyLower rt) c ∧
      (get_repair_responsibility rt c).tenantShare = some c ∧
      (get_repair_responsibility rt c).landlordShare = some 0) ∧
    (200 < c →
      get_repair_responsibility rt c = RepairResult.split (pyLower rt) c 200 (c - 200) ∧
      (get_repair_responsibility rt c).tenantShare = some 200 ∧
      (get_repair_responsibility rt c).landlordShare = some (c - 200)) ∧
    (get_repair_responsibility rt c).category = RepairCategory.costSplit ∧
    get_repair_responsibility ("plumbing leak") 300
      = RepairResult.split ("plumbing leak") 300 200 100 := by
  refine ⟨?_, ?_, ?_, plumbing_leak_split⟩
  · intro h200
    simp [get_repair_responsibility, hb, ht, ha, hc, h200,
      RepairResult.tenantShare, RepairResult.landlordShare]
  · intro h200
    simp [get_repair_responsibility, hb, ht, ha, hc, h200.not_le,
      RepairResult.tenantShare, RepairResult.landlordShare]
  · rcases le_or_lt c 200 with h4 | h4
    · simp [get_repair_responsibility, hb, ht, ha, hc, h4, RepairResult.category]
    · simp [get_repair_responsibility, hb, ht, ha, hc, h4.not_le, RepairResult.category]

theorem repair_cost_split_spec_witness :
    (strContains (pyLower ("plumbing leak")) ("bulb") = false ∧
     strContains (pyLower ("plumbing leak")) ("tube") = false ∧
     strContains (pyLower ("plumbing leak")) ("air conditioner") = false ∧
     (0:ℚ) < 300) ∧
    ((300:ℚ) ≤ 200 →
      get_repair_responsibility ("plumbing leak") 300
        = RepairResult.smallRepair (pyLower ("plumbing leak")) 300 ∧
      (get_repair_responsibility ("plumbing leak") 300).tenantShare = some 300 ∧
      (get_repair_responsibility ("plumbing leak") 300).landlordShare = some 0) ∧
    ((200:ℚ) < 300 →
      get_repair_responsibility ("plumbing leak") 300
        = RepairResult.split (pyLower ("plumbing leak")) 300 200 ((300:ℚ) - 200) ∧
      (get_repair_responsibility ("plumbing leak") 300).tenantShare = some 200 ∧
      (get_repair_responsibility ("plumbing leak") 300).landlordShare
        = some ((300:ℚ) - 200)) ∧
    (get_repair_responsibility ("plumbing leak") 300).category
      = RepairCategory.costSplit ∧
    get_repair_responsibility ("plumbing leak") 300
      = RepairResult.split ("plumbing leak") 300 200 100 :=
  ⟨⟨by decide, by decide, by decide, by norm_num⟩,
    repair_cost_split_spec ("plumbing leak") 300 (by decide) (by decide)
      (by decide) (by norm_num)⟩

/-- C5: whenever the classifier states numeric shares (some tenant share
and some landlord share, which happens exactly in the two cost-split
returns), the stated tenantShare plus landlordShare equals the input cost
exactly. -/
theorem repair_split_sum (rt : String) (c t l : ℚ)
    (ht : (get_repair_responsibility rt c).tenantShare = some t)
    (hl : (get_repair_responsibility rt c).landlordShare = some l) :
    t + l = c := by
  simp only [get_repair_responsibility] at ht hl
  split_ifs at ht hl <;>
    simp only [RepairResult.tenantShare, RepairResult.landlordShare,
      Option.some.injEq, reduceCtorEq] at ht hl
  · rw [← ht, ← hl]; ring
  · rw [← ht, ← hl]; ring

theorem repair_split_sum_witness :
    ((get_repair_responsibility ("plumbing leak") 300).tenantShare = some 200 ∧
     (get_repair_responsibility ("plumbing leak") 300).landlordShare = some 100) ∧
    (200:ℚ) + 100 = 300 :=
  ⟨⟨by rw [plumbing_leak_split]; rfl, by rw [plumbing_leak_split]; rfl⟩,
    repair_split_sum ("plumbing leak") 300 200 100
      (by rw [plumbing_leak_split]; rfl) (by rw [plumbing_leak_split]; rfl)⟩

/-- C10: for a repair type containing "bulb" or "tube", and likewise for
one containing "air conditioner" but neither "bulb" nor "tube", the result
is completely independent of cost: calls differing only in cost are equal,
and the result record carries no cost figure (both shares are absent). -/
theorem repair_cost_independence (rt : String) (c1 c2 : ℚ) :
    ((strContains (pyLower rt) ("bulb") || strContains (pyLower rt) ("tube")) = true →
      get_repair_responsibility rt c1 = get_repair_responsibility rt c2 ∧
      get_repair_responsibility rt c1 = RepairResult.tenantConsumable (pyLower rt) ∧
      (get_repair_responsibility rt c1).tenantShare = none ∧
      (get_repair_responsibility rt c1).landlordShare = none) ∧
    ((strContains (pyLower rt) ("bulb") || strContains (pyLower rt) ("tube")) = false →
      strContains (pyLower rt) ("air conditioner") = true →
      get_repair_responsibility rt c1 = get_repair_responsibility rt c2 ∧
      get_repair_responsibility rt c1 = RepairResult.landlordMaintained (pyLower rt) ∧
      (get_repair_responsibility rt c1).tenantShare = none ∧
      (get_repair_responsibility rt c1).landlordShare = none) := by
  constructor
  · intro h1
    simp [get_repair_responsibility, h1,
      RepairResult.tenantShare, RepairResult.landlordShare]
  · intro h1 h2
    simp [get_repair_responsibility, h1, h2,
      RepairResult.tenantShare, RepairResult.landlordShare]

theorem repair_cost_independence_witness :
    ((strContains (pyLower ("light bulb")) ("bulb")
        || strContains (pyLower ("light bulb")) ("tube")) = true ∧
      (get_repair_responsibility ("light bulb") 5
          = get_repair_responsibility ("light bulb") 500 ∧
        get_repair_responsibility ("light bulb") 5
          = RepairResult.tenantConsumable (pyLower ("light bulb")) ∧
        (get_repair_responsibility ("light bulb") 5).tenantShare = none ∧
        (get_repair_responsibility ("light bulb") 5).landlordShare = none)) ∧
    ((strContains (pyLower ("air conditioner")) ("bulb")
        || strContains (pyLower ("air conditioner")) ("tube")) = false ∧
      strContains (pyLower ("air conditioner")) ("air conditioner") = true ∧
      (get_repair_responsibility ("air conditioner") 5
          = get_repair_responsibility ("air conditioner") 500 ∧
        get_repair_responsibility ("air conditioner") 5
          = RepairResult.landlordMaintained (pyLower ("air conditioner")) ∧
        (get_repair_responsibility ("air conditioner") 5).tenantShare = none ∧
        (get_repair_responsibility ("air conditioner") 5).landlordShare = none)) :=
  ⟨⟨by decide, (repair_cost_independence ("light bulb") 5 500).1 (by decide)⟩,
   ⟨by decide, by decide,
     (repair_cost_independence ("air conditioner") 5 500).2 (by decide) (by decide)⟩⟩

/-! ## Claims about `calculate_moveout_date` -/

/-- C7: whenever `calculate_moveout_date` reports a result, the reported
daysRemaining equals the input noticeDays — it is the difference between
the computed move-out date and the parsed notice date, a fixed-input echo,
not a days-until-today computation. -/
theorem moveout_days_remaining_echo (s : String) (n : Nat) (r : MoveOutResult)
    (h : calculate_moveout_date s n = Except.ok r) :
    r.days_remaining = n ∧ r.notice_days = n ∧
    r.days_remaining = toOrdinal r.moveout_date - toOrdinal r.notice_date := by
  unfold calculate_moveout_date at h
  split at h
  · exact Except.noConfusion h
  · rename_i current heq
    by_cases h1 : 999999999 < n
    · rw [if_pos h1] at h
      exact Except.noConfusion h
    rw [if_neg h1] at h
    by_cases h2 : 9999 < (addDays current n).year
    · rw [if_pos h2] at h
      exact Except.noConfusion h
    rw [if_neg h2] at h
    simp only [Except.ok.injEq] at h
    subst h
    obtain ⟨hv, _⟩ := strptimeYmd_valid s current heq
    have had := (addDays_spec current hv n).2
    refine ⟨?_, rfl, rfl⟩
    show toOrdinal (addDays current n) - toOrdinal current = n
    omega

set_option maxRecDepth 10000 in
theorem moveout_days_remaining_echo_witness :
    calculate_moveout_date ("2025-03-01") 60
      = Except.ok ⟨⟨2025, 3, 1⟩, 60, ⟨2025, 4, 30⟩, 60⟩ ∧
    ((⟨⟨2025, 3, 1⟩, 60, ⟨2025, 4, 30⟩, 60⟩ : MoveOutResult).days_remaining = 60 ∧
     (⟨⟨2025, 3, 1⟩, 60, ⟨2025, 4, 30⟩, 60⟩ : MoveOutResult).notice_days = 60 ∧
     (⟨⟨2025, 3, 1⟩, 60, ⟨2025, 4, 30⟩, 60⟩ : MoveOutResult).days_remaining
       = toOrdinal (⟨⟨2025, 3, 1⟩, 60, ⟨2025, 4, 30⟩, 60⟩ : MoveOutResult).moveout_date
         - toOrdinal (⟨⟨2025, 3, 1⟩, 60, ⟨2025, 4, 30⟩, 60⟩ : MoveOutResult).notice_date) :=
  ⟨by decide, moveout_days_remaining_echo ("2025-03-01") 60 _ (by decide)⟩

/-- C6 (counterexample): "9999-12-31" parses as a valid calendar date and
1 ≥ 0, yet `calculate_moveout_date` does not report a move-out date there:
adding one day overflows Python's date range, the `except` block catches
the `OverflowError`, and an error message is returned instead. -/
theorem moveout_overflow_cex :
    strptimeYmd ("9999-12-31") = Except.ok ⟨9999, 12, 31⟩ ∧
    calculate_moveout_date ("9999-12-31") 1
      = Except.error (dateErrorMessage ("date value out of range")) :=
  ⟨by decide, by decide⟩

set_option maxRecDepth 10000 in
/-- C6 (amended): for every currentDate that parses as a valid
"YYYY-MM-DD" calendar date and every noticeDays ≥ 0 such that the sum
stays within Python's representable range (noticeDays within the timedelta
bound and the resulting date at most year 9999), `calculate_moveout_date`
reports moveOutDate = currentDate + noticeDays calendar days — the valid
date whose ordinal exceeds the notice date's by exactly noticeDays; no
timezone, no business-day skipping.  In particular ("2025-03-01", 60)
reports 2025-04-30. -/
theorem moveout_calendar_add (s : String) (n : Nat) (d : PyDate)
    (hp : strptimeYmd s = Except.ok d) (hn : n ≤ 999999999)
    (hr : (addDays d n).year ≤ 9999) :
    calculate_moveout_date s n =
      Except.ok ⟨d, n, addDays d n, toOrdinal (addDays d n) - toOrdinal d⟩ ∧
    toOrdinal (addDays d n) = toOrdinal d + n ∧
    ValidDate (addDays d n) ∧
    calculate_moveout_date ("2025-03-01") 60
      = Except.ok ⟨⟨2025, 3, 1⟩, 60, ⟨2025, 4, 30⟩, 60⟩ := by
  obtain ⟨hv, _⟩ := strptimeYmd_valid s d hp
  have hs := addDays_spec d hv n
  refine ⟨?_, hs.2, hs.1, by decide⟩
  unfold calculate_moveout_date
  rw [hp]
  show (if 999999999 < n then _ else _) = _
  rw [if_neg (by omega), if_neg (by omega)]

set_option maxRecDepth 10000 in
theorem moveout_calendar_add_witness :
    (strptimeYmd ("2025-03-01") = Except.ok ⟨2025, 3, 1⟩ ∧ (60:Nat) ≤ 999999999 ∧
      (addDays ⟨2025, 3, 1⟩ 60).year ≤ 9999) ∧
    calculate_moveout_date ("2025-03-01") 60 =
      Except.ok ⟨⟨2025, 3, 1⟩, 60, addDays ⟨2025, 3, 1⟩ 60,
        toOrdinal (addDays ⟨2025, 3, 1⟩ 60) - toOrdinal ⟨2025, 3, 1⟩⟩ :=
  ⟨⟨by decide, by decide, by decide⟩,
    (moveout_calendar_add ("2025-03-01") 60 ⟨2025, 3, 1⟩ (by decide) (by decide)
      (by decide)).1⟩

/-- C8 (counterexample): parsing is not strict "YYYY-MM-DD" and the error
message does not always include the offending string: "2025-3-1" is not of
zero-padded "YYYY-MM-DD" form yet parses successfully (CPython's %m and %d
accept one digit), and for "2025-02-30" the returned DateParseError
message ("day is out of range for month" plus the fixed format reminder)
does not contain the offending string "2025-02-30". -/
theorem moveout_parse_cex :
    strptimeYmd ("2025-3-1") = Except.ok ⟨2025, 3, 1⟩ ∧
    calculate_moveout_date ("2025-02-30") 60
      = Except.error (dateErrorMessage ("day is out of range for month")) ∧
    strContains (dateErrorMessage ("day is out of range for month"))
      ("2025-02-30") = false :=
  ⟨by decide, by decide, by decide⟩

/-- C8 (amended): `calculate_moveout_date` parses currentDate with
Python's "%Y-%m-%d" rules (which also accept non-zero-padded month and
day, see the counterexample); for ASCII inputs — on which the embedding of
`strptime` is exact — whenever parsing fails it returns a DateParseError
result whose message references the expected "YYYY-MM-DD" format, and when
the text does not match the pattern the message quotes the offending
string in Python repr form, so it echoes the string verbatim whenever the
repr needs no escaping (printable ASCII free of single quotes and
backslashes); no input propagates an exception as a crash (the embedding
is a total function into ok-or-error). -/
theorem moveout_parse_error_spec (s : String) (n : Nat) (e : String)
    (hascii : asciiOnly s = true)
    (h : strptimeYmd s = Except.error e) :
    calculate_moveout_date s n = Except.error (dateErrorMessage e) ∧
    strContains (dateErrorMessage e) ("YYYY-MM-DD") = true ∧
    (regexMatchYmd s.data = none → plainAscii s = true →
      strContains (dateErrorMessage e) s = true) := by
  refine ⟨?_, strContains_dateErrorMessage_format e, ?_⟩
  · unfold calculate_moveout_date
    rw [h]
  · intro hr hplain
    have he : e = ("time data ") ++ pyRepr s ++ (" does not match format ")
        ++ pyRepr ("%Y-%m-%d") := by
      unfold strptimeYmd at h
      rw [hr] at h
      simpa using h.symm
    subst he
    unfold dateErrorMessage
    apply strContains_append_left
    apply strContains_append_right
    apply strContains_append_left
    apply strContains_append_left
    apply strContains_append_right
    rw [pyRepr_plain s hplain]
    unfold strContains
    rw [data_mk_eq]
    exact containsSub_cons _ _ _ (containsSub_append_self _ _)

theorem moveout_parse_error_spec_witness :
    (asciiOnly ("not-a-date") = true ∧
      strptimeYmd ("not-a-date")
        = Except.error (("time data ") ++ pyRepr ("not-a-date")
            ++ (" does not match format ") ++ pyRepr ("%Y-%m-%d"))) ∧
    (calculate_moveout_date ("not-a-date") 60
        = Except.error (dateErrorMessage (("time data ") ++ pyRepr ("not-a-date")
            ++ (" does not match format ") ++ pyRepr ("%Y-%m-%d"))) ∧
      strContains (dateErrorMessage (("time data ") ++ pyRepr ("not-a-date")
            ++ (" does not match format ") ++ pyRepr ("%Y-%m-%d")))
        ("YYYY-MM-DD") = true ∧
      (regexMatchYmd ("not-a-date").data = none → plainAscii ("not-a-date") = true →
        strContains (dateErrorMessage (("time data ") ++ pyRepr ("not-a-date")
            ++ (" does not match format ") ++ pyRepr ("%Y-%m-%d")))
          ("not-a-date") = true)) :=
  ⟨⟨by decide, by decide⟩,
    moveout_parse_error_spec ("not-a-date") 60
      (("time data ") ++ pyRepr ("not-a-date")
        ++ (" does not match format ") ++ pyRepr ("%Y-%m-%d"))
      (by decide) (by decide)⟩
